import Mathlib

/-!
# Verification of the BuildMaster build-orchestration core (`src/api/build_ops.py`)

This file gives a shallow embedding of the build-monitoring subsystem of the
BuildMaster repository: the log parser (`parse_log_line`), the progress
estimator (`calculate_progress` over `BUILD_STEPS`), the step extractor
(`get_current_step_from_log`), the success / error classifiers
(`is_build_successful`, `extract_errors`, and the inline error-type chain of
`run_build`), the supervisor poll loop of `run_build` (modelled as a per-tick
transition function `tick` plus a loop `runLoop` over a list of per-tick
observations), and `kill_build`.

Conventions of the embedding:
* Python strings are represented by Lean `String` / `List Char`; Python's
  `str.strip`, `str.lower`, substring membership (`in`), `str.startswith`
  and slicing are modelled by the executable helpers below.  The relevant
  regular expressions (`\x1b\[[0-9;]*m`, `\[STEP (\d+)\] (.+)`) are modelled
  by deterministic scanners with the same left-to-right / greedy semantics
  on the character class in question (`\d` is ASCII here; the build logs the
  code consumes are ASCII).
* Wall-clock instants and progress percentages are rationals (`ℚ`); the
  Python floats that occur in the claims take exactly representable values
  (integral percentages, `round(x, 1)` at integral `x`), so rational
  arithmetic agrees with the float arithmetic of the source on everything
  stated here.
* `datetime` timestamps carried by `BuildLogEntry` in the source are
  irrelevant to every claim and are omitted from the record.
* The supervisor loop's interaction with the outside world (the log file's
  size and content, the subprocess's `returncode`, the current time) is
  abstracted into one observation record `TickObs` per 5-second poll tick;
  `tick` is a direct transcription of the body of the `while True:` loop of
  `run_build` (lines 446–573), and `runLoop` folds it over a list of
  observations, stopping at the first tick whose outcome is not
  "keep running" exactly as the `break` statements do.
-/

namespace BuildMaster

/-- Python `str.strip()` whitespace (the ASCII part, which is all the build
logs contain): space, tab, newline, carriage return, vertical tab, form feed. -/
def pyWS (c : Char) : Bool :=
  c = ' ' || c = '\t' || c = '\n' || c = '\r' || c = '\x0b' || c = '\x0c'

/-- Python `str.strip()` on a character list: drop whitespace from both ends. -/
def pyStripList (l : List Char) : List Char :=
  ((l.dropWhile pyWS).reverse.dropWhile pyWS).reverse

/-- A character matched by the class `[0-9;]` of the ANSI-escape regex. -/
def ansiParam (c : Char) : Bool := c.isDigit || c = ';'

/-- Scanner state for `stripAnsi`: outside any candidate escape sequence,
just after `ESC`, or inside the parameter bytes after `ESC [` (parameters
accumulated in reverse). -/
inductive AnsiSt
  | norm
  | esc
  | par (ps : List Char)

/-- One left-to-right pass implementing `re.sub(r'\x1b\[[0-9;]*m', '', line)`:
a maximal run of `[0-9;]` after `ESC [` must be closed by `m` to be deleted;
on failure the pending characters are emitted verbatim and scanning resumes at
the failing character (no character inside a failed candidate other than its
head can start a match, since parameters and `[` are not `ESC`). -/
def stripAnsiGo : AnsiSt → List Char → List Char
  | .norm, [] => []
  | .norm, c :: r =>
    if c = '\x1b' then stripAnsiGo .esc r else c :: stripAnsiGo .norm r
  | .esc, [] => ['\x1b']
  | .esc, c :: r =>
    if c = '\x1b' then '\x1b' :: stripAnsiGo .esc r
    else if c = '[' then stripAnsiGo (.par []) r
    else '\x1b' :: c :: stripAnsiGo .norm r
  | .par ps, [] => '\x1b' :: '[' :: ps.reverse
  | .par ps, c :: r =>
    if c = 'm' then stripAnsiGo .norm r
    else if ansiParam c then stripAnsiGo (.par (c :: ps)) r
    else '\x1b' :: '[' :: ps.reverse ++
      (if c = '\x1b' then stripAnsiGo .esc r else c :: stripAnsiGo .norm r)

/-- `re.sub(r'\x1b\[[0-9;]*m', '', line)` from `parse_log_line`. -/
def stripAnsi (l : List Char) : List Char := stripAnsiGo .norm l

/-- Python substring membership `needle in hay` (`""` is in everything). -/
def containsSub (needle : List Char) : List Char → Bool
  | [] => needle.isPrefixOf []
  | c :: t => needle.isPrefixOf (c :: t) || containsSub needle t

/-- Python `str.lower()` (ASCII case folding; the phrases searched for are
ASCII). -/
def toLowerList (l : List Char) : List Char := l.map Char.toLower

/-- `int(digits)` on a nonempty ASCII digit string. -/
def digitsToNat (ds : List Char) : Nat :=
  ds.foldl (fun n c => 10 * n + (c.toNat - '0'.toNat)) 0

/-- Python `s[-n:]` (the last `n` characters, or all of `s` if shorter). -/
def lastChars (n : Nat) (s : String) : String :=
  ⟨s.data.drop (s.data.length - n)⟩

/-- Python `s.split('\n')` on a character list: splits at every newline and
keeps empty segments (`"".split('\n') == ['']`). -/
def splitOnNl : List Char → List (List Char)
  | [] => [[]]
  | c :: r =>
    if c = '\n' then [] :: splitOnNl r
    else
      match splitOnNl r with
      | h :: t => (c :: h) :: t
      | [] => [[c]]

/-- Python `'\n'.join(xs)`. -/
def joinNl : List String → String
  | [] => ""
  | [s] => s
  | s :: r => s ++ "\n" ++ joinNl r

/-- The severity tags of `LogLevel` in the source. -/
inductive LogLevel
  | build
  | step
  | ok
  | info
  | warn
  | error
deriving DecidableEq

/-- `BuildLogEntry` from the source, minus the timestamp (which no claim
mentions). -/
structure BuildLogEntry where
  level : LogLevel
  message : String
  step : Option Nat := none
deriving DecidableEq

/-- Anchored attempt of `re.match(r'\[STEP (\d+)\] (.+)', line)`: the literal
`"[STEP "`, a maximal nonempty ASCII digit run, the literal `"] "`, then a
nonempty message running to the end of the line (`.` stops at a newline).
Backtracking never shortens the digit run because the character after a
shorter run is a digit, not `]`. -/
def stepMatchAt (l : List Char) : Option (Nat × List Char) :=
  if "[STEP ".data.isPrefixOf l then
    if ((l.drop 6).takeWhile Char.isDigit ≠ [] ∧
        "] ".data.isPrefixOf ((l.drop 6).dropWhile Char.isDigit) = true) then
      if (((l.drop 6).dropWhile Char.isDigit).drop 2).takeWhile
          (fun c => c ≠ '\n') ≠ [] then
        some (digitsToNat ((l.drop 6).takeWhile Char.isDigit),
          (((l.drop 6).dropWhile Char.isDigit).drop 2).takeWhile (fun c => c ≠ '\n'))
      else none
    else none
  else none

/-- `parse_log_line` from the source: strip ANSI escapes and surrounding
whitespace; empty lines yield nothing; the six literal prefixes are tried in
source order (`[BUILD]`, the `[STEP n]` regex, `[OK]`, `[INFO]`, `[WARN]`,
`[ERROR]`); a line starting with `[STEP` whose regex match fails falls
through (it can match none of the later prefixes) to the untagged case, which
tags the stripped line verbatim as INFO. -/
def parse_log_line (raw : String) : Option BuildLogEntry :=
  let l := pyStripList (stripAnsi raw.data)
  if l = [] then none
  else if "[BUILD]".data.isPrefixOf l then
    some ⟨.build, ⟨pyStripList (l.drop 7)⟩, none⟩
  else
    match (if "[STEP".data.isPrefixOf l then stepMatchAt l else none) with
    | some (n, m) => some ⟨.step, ⟨m⟩, some n⟩
    | none =>
      if "[OK]".data.isPrefixOf l then
        some ⟨.ok, ⟨pyStripList (l.drop 4)⟩, none⟩
      else if "[INFO]".data.isPrefixOf l then
        some ⟨.info, ⟨pyStripList (l.drop 6)⟩, none⟩
      else if "[WARN]".data.isPrefixOf l then
        some ⟨.warn, ⟨pyStripList (l.drop 6)⟩, none⟩
      else if "[ERROR]".data.isPrefixOf l then
        some ⟨.error, ⟨pyStripList (l.drop 7)⟩, none⟩
      else
        some ⟨.info, ⟨l⟩, none⟩

/-- The fixed step-weight table `BUILD_STEPS` (key, name, weight). -/
def BUILD_STEPS : List (Nat × String × Nat) :=
  [(0, "Kill zombies", 2),
   (1, "Stop PM2", 5),
   (2, "Stop Redis", 2),
   (3, "Check memory", 1),
   (4, "Install deps", 10),
   (5, "Build app", 60),
   (6, "Verify build", 3),
   (7, "Start Redis", 2),
   (8, "Restart PM2", 12),
   (9, "Switch Nginx", 3)]

/-- `total_weight` inside `calculate_progress`: the sum of all step weights. -/
def total_weight : Nat := (BUILD_STEPS.map (fun s => s.2.2)).sum

/-- `completed_weight` inside `calculate_progress`: the sum of the weights of
the steps `s` with `s < current_step or (s == current_step and step_complete)`
(a conditional sum over the table, written as a sum of guarded weights). -/
def completed_weight (current_step : Nat) (step_complete : Bool) : Nat :=
  (BUILD_STEPS.map (fun s =>
    if s.1 < current_step ∨ (s.1 = current_step ∧ step_complete = true)
    then s.2.2 else 0)).sum

/-- `calculate_progress`: `min(99.0, (completed_weight / total_weight) * 100)`.
All values reached here are integral, so `ℚ` agrees with the source's float
arithmetic. -/
def calculate_progress (current_step : Nat) (step_complete : Bool := false) : ℚ :=
  min 99 ((completed_weight current_step step_complete : ℚ) / (total_weight : ℚ) * 100)

/-- Python `round(x, 1)` as applied to the progress values written by the
supervisor loop.  Every value actually passed in is an integer-valued
rational (a capped sum of integer weights over a total of 100), so no
half-way tie ever arises and round-half-even agrees with `⌊10x + 1/2⌋ / 10`. -/
def pround1 (x : ℚ) : ℚ := (round (10 * x) : ℤ) / 10

/-- The `success_indicators` list of `is_build_successful`. -/
def success_indicators : List String :=
  ["Server build and restart completed!",
   "BUILD COMPLETED SUCCESSFULLY",
   "BUILD_COMPLETED created",
   "Build completed successfully"]

/-- `any(indicator in output for indicator in success_indicators)`. -/
def hasSuccessIndicator (output : String) : Bool :=
  success_indicators.any (fun ind => containsSub ind.data output.data)

/-- `is_build_successful` from the source: a nonzero exit code is never
successful; otherwise at least one literal success indicator must occur in
the output. -/
def is_build_successful (output : String) (exit_code : Int) : Bool :=
  if exit_code ≠ 0 then false else hasSuccessIndicator output

/-- The entries `extract_errors` collects from one (stripped) line: the
`[ERROR]`-prefixed remainder, the line itself if it mentions a Next.js build
error, and the line itself if it mentions a fatal / out-of-memory error —
three independent `if`s in the source, so one line can contribute several
entries. -/
def lineErrors (l : List Char) : List String :=
  (if "[ERROR]".data.isPrefixOf l then [⟨pyStripList (l.drop 7)⟩] else []) ++
  (if containsSub "Build error".data l || containsSub "Failed to compile".data l
   then [(⟨l⟩ : String)] else []) ++
  (if containsSub "FATAL ERROR".data l
      || containsSub "heap out of memory".data (toLowerList l)
   then [(⟨l⟩ : String)] else [])

/-- `extract_errors` from the source: split the output on newlines, strip
each line, and collect that line's error entries in order. -/
def extract_errors (output : String) : List String :=
  (splitOnNl output.data).flatMap (fun line => lineErrors (pyStripList line))

/-- The inline error-type classification of `run_build` (lines 624–637):
case-insensitive substring search over the whole log in fixed priority
order, defaulting to `BUILD_ERROR`. -/
def classify_error_type (log : String) : String :=
  let e := toLowerList log.data
  if containsSub "out of memory".data e
      || containsSub "heap out of memory".data e then "OUT_OF_MEMORY"
  else if containsSub "econnrefused".data e
      || containsSub "connection refused".data e then "CONNECTION_ERROR"
  else if containsSub "module not found".data e
      || containsSub "cannot find module".data e then "MODULE_NOT_FOUND"
  else if containsSub "syntax error".data e
      || containsSub "unexpected token".data e then "SYNTAX_ERROR"
  else if containsSub "type error".data e
      || containsSub "typescript error".data e then "TYPE_ERROR"
  else "BUILD_ERROR"

/-- The fields of the build record that the exit-classification code of
`run_build` (lines 601–637) writes.  `progress` and `error` are `none` when
that code leaves the stored field untouched. -/
structure FinalState where
  status : String
  message : String
  progress : Option ℚ
  error : Option String
  errorType : Option String
deriving DecidableEq

/-- The exit classification of `run_build` (lines 601–637), reached when the
subprocess has exited and `await process.wait()` returned: success requires
`process.returncode == 0 and is_build_successful(log_content, ...)`;
otherwise the record gets status ERROR, an `error` text from
`extract_errors` (first ten entries joined, else the last 3000 characters of
the log, else `"Unknown error"`), and an `error_type` from the priority
chain.  (The success branch additionally stores a timing breakdown, which no
claim mentions.) -/
def finalizeBuild (returncode : Int) (log : String) : FinalState :=
  if returncode = 0 ∧ is_build_successful log returncode = true then
    ⟨"success", "Build completed successfully", some 100, none, none⟩
  else
    let errors := extract_errors log
    ⟨"error",
     match errors with
     | e :: _ => "Build failed: " ++ e
     | [] => "Build failed with exit code " ++ toString returncode,
     none,
     some (if errors ≠ [] then joinNl (errors.take 10)
           else if log ≠ "" then lastChars 3000 log
           else "Unknown error"),
     some (classify_error_type log)⟩

/-- First successful match of the unanchored pattern `\[STEP (\d+)\] (.+)`
inside one newline-free line: try the anchored match at every position, left
to right.  (A successful match consumes the rest of the line, so there is at
most one per line, and `re.findall` finds per line exactly this one.) -/
def findStepInLine : List Char → Option (Nat × List Char)
  | [] => none
  | c :: rest =>
    match stepMatchAt (c :: rest) with
    | some r => some r
    | none => findStepInLine rest

/-- `get_current_step_from_log`: all `\[STEP (\d+)\] (.+)` matches of the
accumulated log in order (the pattern cannot span a newline, so the matches
are the per-line matches, in line order), keeping the last one; with no
match, `(0, "Initializing")`. -/
def get_current_step_from_log (content : String) : Nat × String :=
  match ((splitOnNl content.data).flatMap
      (fun line => (findStepInLine line).toList)).getLast? with
  | some (n, m) => (n, ⟨m⟩)
  | none => (0, "Initializing")

/-! ## The supervisor poll loop of `run_build`

The loop state consists of exactly the four local variables the source
mutates across iterations (`last_output_time`, `last_output_size`,
`last_step`, `last_sanity_check`); `build_start_time` is the `start`
parameter.  One `TickObs` packages what one iteration observes of the world:
the subprocess's `returncode`, the current time, and the log file's
existence, byte size and content. -/

/-- The supervisor loop's mutable local state. -/
structure LoopState where
  lastOutputTime : ℚ
  lastOutputSize : Nat
  lastStep : Nat
  lastSanityCheck : ℚ
deriving DecidableEq

/-- What one poll-loop iteration observes of the outside world. -/
structure TickObs where
  returncode : Option Int
  now : ℚ
  logExists : Bool
  size : Nat
  content : String
deriving DecidableEq

/-- How one iteration of the loop ends: `exited` (the `returncode`-is-set
check at the top of the tick breaks out to the normal exit path), one of the
three forced-kill transitions, or `keepRunning` (the loop sleeps again). -/
inductive TickOutcome
  | exited
  | timeout
  | stalled
  | oom
  | keepRunning
deriving DecidableEq

/-- A terminal `(status, error_type)` pair written to the build record by a
forced-kill transition inside the loop. -/
structure StatusWrite where
  status : String
  errorType : String
deriving DecidableEq

/-- Everything one tick does: how it ends, the terminal status write if any,
the rounded progress value written if the derived step changed, the number
of kill signals sent to the subprocess, and the successor loop state. -/
structure TickResult where
  outcome : TickOutcome
  terminalWrite : Option StatusWrite
  progressWrite : Option ℚ
  kills : Nat
  st : LoopState
deriving DecidableEq

/-- The memory-error scan of SANITY CHECK 3:
`"heap out of memory" in content.lower() or "fatal error" in content.lower()`. -/
def oomDetected (content : String) : Bool :=
  containsSub "heap out of memory".data (toLowerList content.data)
  || containsSub "fatal error".data (toLowerList content.data)

/-- The progress-update block (lines 492–504): re-derive the current step
from the whole log; if it differs from `last_step`, record it and write
`round(calculate_progress(current_step), 1)` to the build record. -/
def stepUpdate (st : LoopState) (content : String) : Option ℚ × LoopState :=
  if (get_current_step_from_log content).1 ≠ st.lastStep then
    (some (pround1 (calculate_progress (get_current_step_from_log content).1 false)),
     { st with lastStep := (get_current_step_from_log content).1 })
  else (none, st)

/-- SANITY CHECK 3 (lines 538–570): at most every 30 seconds, scan the log
for memory errors and, if found, write ERROR / OUT_OF_MEMORY, kill the
process and break; otherwise only refresh the elapsed-time field (not
modelled) and keep running. -/
def sanityCheck (st : LoopState) (o : TickObs) (pw : Option ℚ) : TickResult :=
  if o.now - st.lastSanityCheck > 30 then
    if oomDetected o.content then
      ⟨.oom, some ⟨"error", "OUT_OF_MEMORY"⟩, pw, 1,
        { st with lastSanityCheck := o.now }⟩
    else ⟨.keepRunning, none, pw, 0, { st with lastSanityCheck := o.now }⟩
  else ⟨.keepRunning, none, pw, 0, st⟩

/-- The log-dependent part of a tick (lines 484–570), entered only when the
log file exists: progress update, then the stall check (the `elif` chained
to the size comparison), then SANITY CHECK 3. -/
def tickLog (pwst : Option ℚ × LoopState) (o : TickObs) : TickResult :=
  if o.size ≠ pwst.2.lastOutputSize then
    sanityCheck { pwst.2 with lastOutputSize := o.size, lastOutputTime := o.now }
      o pwst.1
  else if o.now - pwst.2.lastOutputTime > 600 then
    ⟨.stalled, some ⟨"stalled", "STALLED"⟩, pwst.1, 1, pwst.2⟩
  else sanityCheck pwst.2 o pwst.1

/-- One iteration of the `while True:` loop of `run_build` (lines 446–573),
in source order: the process-done check first (line 450), then the hard
timeout (SANITY CHECK 1), then — only if the log file exists — the progress
update, the stall check (SANITY CHECK 2) and the periodic memory scan
(SANITY CHECK 3). -/
def tick (start : ℚ) (st : LoopState) (o : TickObs) : TickResult :=
  match o.returncode with
  | some _ => ⟨.exited, none, none, 0, st⟩
  | none =>
    if o.now - start > 1800 then
      ⟨.timeout, some ⟨"error", "TIMEOUT"⟩, none, 1, st⟩
    else if o.logExists = true then tickLog (stepUpdate st o.content) o
    else ⟨.keepRunning, none, none, 0, st⟩

/-- The whole poll loop: run `tick` on successive observations, stopping at
the first tick that does not keep running (every terminal transition in the
source is immediately followed by `break`). -/
def runLoop (start : ℚ) : LoopState → List TickObs → List TickResult
  | _, [] => []
  | st, o :: rest =>
    if (tick start st o).outcome = .keepRunning then
      tick start st o :: runLoop start (tick start st o).st rest
    else [tick start st o]

/-- The progress values a run writes, in order. -/
def progressWrites (rs : List TickResult) : List ℚ :=
  rs.filterMap (fun r => r.progressWrite)

/-- The total number of kill signals a run sends to the subprocess. -/
def killCount (rs : List TickResult) : Nat :=
  (rs.map (fun r => r.kills)).sum

/-! ## `kill_build` -/

/-- The build-record fields `kill_build` reads and writes. -/
structure BuildRecordM where
  status : String
  message : String
deriving DecidableEq

/-- The dictionary `kill_build` returns. -/
structure KillResult where
  success : Bool
  error : Option String
  message : Option String
deriving DecidableEq

/-- `kill_build` from the source.  `record` is the stored build record for
the id (`load_build_status`), `proc` the entry of `_running_processes` for
the id, carrying its `returncode` (`some (some rc)` = registered but already
exited, `some none` = registered and alive, `none` = no entry).  The result
pairs the returned dictionary with the stored record afterwards; on the
success path the subprocess is terminated (escalating to kill) and the
record becomes CANCELLED. -/
def kill_build (record : Option BuildRecordM) (proc : Option (Option Int)) :
    KillResult × Option BuildRecordM :=
  match record with
  | none => (⟨false, some "Build not found", none⟩, none)
  | some r =>
    if r.status ≠ "running" ∧ r.status ≠ "pending" then
      (⟨false, some ("Build cannot be killed - current status: " ++ r.status),
        none⟩, some r)
    else
      match proc with
      | none => (⟨false, some "Build process is not running", none⟩, some r)
      | some (some _) =>
        (⟨false, some "Build process is not running", none⟩, some r)
      | some none =>
        (⟨true, none, some "Build cancelled successfully"⟩,
         some { r with status := "cancelled",
                       message := "Build was cancelled by user" })

/-! ## Helper lemmas -/

lemma completed_weight_mono (b : Bool) {s t : Nat} (h : s ≤ t) :
    completed_weight s b ≤ completed_weight t b := by
  unfold completed_weight
  refine List.sum_le_sum ?_
  intro i _
  by_cases hc : i.1 < s ∨ (i.1 = s ∧ b = true)
  · have hc2 : i.1 < t ∨ (i.1 = t ∧ b = true) := by
      rcases hc with h1 | ⟨h2, h3⟩
      · exact Or.inl (by omega)
      · rcases Nat.eq_or_lt_of_le h with heq | hlt
        · exact Or.inr ⟨by omega, h3⟩
        · exact Or.inl (by omega)
    rw [if_pos hc, if_pos hc2]
  · rw [if_neg hc]
    exact Nat.zero_le _

lemma total_weight_eq : total_weight = 100 := by decide

lemma calculate_progress_mono (b : Bool) {s t : Nat} (h : s ≤ t) :
    calculate_progress s b ≤ calculate_progress t b := by
  unfold calculate_progress
  have hc : completed_weight s b ≤ completed_weight t b := completed_weight_mono b h
  refine min_le_min le_rfl ?_
  rw [total_weight_eq]
  have hq : (completed_weight s b : ℚ) ≤ (completed_weight t b : ℚ) := by
    exact_mod_cast hc
  linarith

lemma pround1_mono {x y : ℚ} (h : x ≤ y) : pround1 x ≤ pround1 y := by
  unfold pround1
  have hr : round (10 * x) ≤ round (10 * y) := by
    rw [round_eq, round_eq]
    exact Int.floor_le_floor (by linarith)
  have hq : ((round (10 * x) : ℤ) : ℚ) ≤ ((round (10 * y) : ℤ) : ℚ) := by
    exact_mod_cast hr
  linarith

lemma is_build_successful_iff (log : String) (rc : Int) :
    is_build_successful log rc = true ↔ (rc = 0 ∧ hasSuccessIndicator log = true) := by
  unfold is_build_successful
  split <;> simp_all

lemma stepUpdate_lastOutputSize (st : LoopState) (c : String) :
    (stepUpdate st c).2.lastOutputSize = st.lastOutputSize := by
  unfold stepUpdate; split <;> rfl

lemma stepUpdate_lastOutputTime (st : LoopState) (c : String) :
    (stepUpdate st c).2.lastOutputTime = st.lastOutputTime := by
  unfold stepUpdate; split <;> rfl

lemma stepUpdate_lastSanityCheck (st : LoopState) (c : String) :
    (stepUpdate st c).2.lastSanityCheck = st.lastSanityCheck := by
  unfold stepUpdate; split <;> rfl

lemma stepUpdate_noStep (st : LoopState) (c : String)
    (h : (get_current_step_from_log c).1 = st.lastStep) :
    stepUpdate st c = (none, st) := by
  unfold stepUpdate; rw [h, if_neg (fun hne => hne rfl)]

lemma stepUpdate_step (st : LoopState) (c : String) (s : Nat)
    (h : (get_current_step_from_log c).1 = s) (hne : s ≠ st.lastStep) :
    stepUpdate st c =
      (some (pround1 (calculate_progress s false)), { st with lastStep := s }) := by
  unfold stepUpdate; rw [h, if_pos hne]

lemma tick_exited (start : ℚ) (st : LoopState) (o : TickObs) (rc : Int)
    (h : o.returncode = some rc) :
    tick start st o = ⟨.exited, none, none, 0, st⟩ := by
  unfold tick; rw [h]

lemma tick_timeout (start : ℚ) (st : LoopState) (o : TickObs)
    (h0 : o.returncode = none) (h1 : o.now - start > 1800) :
    tick start st o = ⟨.timeout, some ⟨"error", "TIMEOUT"⟩, none, 1, st⟩ := by
  unfold tick; rw [h0, if_pos h1]

lemma tick_stalled (start : ℚ) (st : LoopState) (o : TickObs)
    (h0 : o.returncode = none) (h1 : ¬(o.now - start > 1800))
    (h2 : o.logExists = true) (h3 : o.size = st.lastOutputSize)
    (h4 : o.now - st.lastOutputTime > 600) :
    tick start st o = ⟨.stalled, some ⟨"stalled", "STALLED"⟩,
      (stepUpdate st o.content).1, 1, (stepUpdate st o.content).2⟩ := by
  unfold tick
  rw [h0, if_neg h1, if_pos h2]
  unfold tickLog
  rw [stepUpdate_lastOutputSize, if_neg (not_not_intro h3),
    stepUpdate_lastOutputTime, if_pos h4]

lemma tick_oom (start : ℚ) (st : LoopState) (o : TickObs)
    (h0 : o.returncode = none) (h1 : ¬(o.now - start > 1800))
    (h2 : o.logExists = true)
    (h3 : o.size ≠ st.lastOutputSize ∨ ¬(o.now - st.lastOutputTime > 600))
    (h4 : o.now - st.lastSanityCheck > 30) (h5 : oomDetected o.content = true) :
    (tick start st o).outcome = .oom ∧
    (tick start st o).terminalWrite = some ⟨"error", "OUT_OF_MEMORY"⟩ ∧
    (tick start st o).kills = 1 := by
  unfold tick
  rw [h0, if_neg h1, if_pos h2]
  unfold tickLog
  rw [stepUpdate_lastOutputSize]
  have hsan : ∀ st2 : LoopState, st2.lastSanityCheck = st.lastSanityCheck →
      sanityCheck st2 o (stepUpdate st o.content).1 =
        ⟨.oom, some ⟨"error", "OUT_OF_MEMORY"⟩, (stepUpdate st o.content).1, 1,
          { st2 with lastSanityCheck := o.now }⟩ := by
    intro st2 hs
    unfold sanityCheck
    rw [hs, if_pos h4, if_pos h5]
  by_cases hsz : o.size ≠ st.lastOutputSize
  · rw [if_pos hsz,
      hsan { (stepUpdate st o.content).2 with
              lastOutputSize := o.size, lastOutputTime := o.now }
        (stepUpdate_lastSanityCheck st o.content)]
    exact ⟨rfl, rfl, rfl⟩
  · have htime : ¬(o.now - st.lastOutputTime > 600) := h3.resolve_left hsz
    rw [if_neg hsz, stepUpdate_lastOutputTime, if_neg htime,
      hsan (stepUpdate st o.content).2 (stepUpdate_lastSanityCheck st o.content)]
    exact ⟨rfl, rfl, rfl⟩

lemma tick_quiet_progress (start : ℚ) (st : LoopState) (o : TickObs)
    (h0 : o.returncode = none) (h1 : ¬(o.now - start > 1800))
    (h2 : o.logExists = true) (h3 : o.size ≠ st.lastOutputSize)
    (h4 : ¬(o.now - st.lastSanityCheck > 30)) :
    tick start st o = ⟨.keepRunning, none, (stepUpdate st o.content).1, 0,
      { (stepUpdate st o.content).2 with
          lastOutputSize := o.size, lastOutputTime := o.now }⟩ := by
  unfold tick
  rw [h0, if_neg h1, if_pos h2]
  unfold tickLog
  rw [stepUpdate_lastOutputSize, if_pos h3]
  unfold sanityCheck
  rw [show ({ (stepUpdate st o.content).2 with
        lastOutputSize := o.size, lastOutputTime := o.now } : LoopState).lastSanityCheck =
      st.lastSanityCheck from stepUpdate_lastSanityCheck st o.content, if_neg h4]

lemma tick_kills_of_outcome (start : ℚ) (st : LoopState) (o : TickObs) :
    ((tick start st o).outcome = .keepRunning → (tick start st o).kills = 0) ∧
    ((tick start st o).outcome = .stalled → (tick start st o).kills = 1) := by
  unfold tick tickLog sanityCheck
  cases hrc : o.returncode with
  | some rc => simp
  | none => split_ifs <;> simp

lemma tick_write_state (start : ℚ) (st : LoopState) (o : TickObs) :
    ((tick start st o).progressWrite = none ∧
      (tick start st o).st.lastStep = st.lastStep) ∨
    ((tick start st o).progressWrite =
        some (pround1 (calculate_progress
          (get_current_step_from_log o.content).1 false)) ∧
      (tick start st o).st.lastStep = (get_current_step_from_log o.content).1) := by
  unfold tick
  cases hrc : o.returncode with
  | some rc => exact Or.inl ⟨rfl, rfl⟩
  | none =>
    by_cases h1 : o.now - start > 1800
    · rw [if_pos h1]; exact Or.inl ⟨rfl, rfl⟩
    · rw [if_neg h1]
      by_cases h2 : o.logExists = true
      · rw [if_pos h2]
        by_cases h3 : (get_current_step_from_log o.content).1 ≠ st.lastStep
        · rw [stepUpdate_step st o.content _ rfl h3]
          right
          unfold tickLog sanityCheck
          split_ifs <;> exact ⟨rfl, rfl⟩
        · rw [stepUpdate_noStep st o.content (not_ne_iff.mp h3)]
          left
          unfold tickLog sanityCheck
          split_ifs <;> exact ⟨rfl, rfl⟩
      · rw [if_neg h2]; exact Or.inl ⟨rfl, rfl⟩

lemma tick_terminalWrite_status (start : ℚ) (st : LoopState) (o : TickObs)
    (w : StatusWrite) :
    (tick start st o).terminalWrite = some w →
    w.status = "error" ∨ w.status = "stalled" := by
  unfold tick tickLog sanityCheck
  cases hrc : o.returncode with
  | some rc => intro h; simp at h
  | none =>
    split_ifs <;> intro h <;> simp at h <;> rw [← h] <;> simp

lemma chain_le_of_le {a b : Nat} {l : List Nat} (h : a ≤ b)
    (hc : List.Chain (· ≤ ·) b l) : List.Chain (· ≤ ·) a l := by
  cases l with
  | nil => exact List.Chain.nil
  | cons c t =>
    rw [List.chain_cons] at hc ⊢
    exact ⟨le_trans h hc.1, hc.2⟩

lemma runLoop_progress_chain (start : ℚ) :
    ∀ (obs : List TickObs) (st : LoopState),
      List.Chain (· ≤ ·) st.lastStep
        (obs.map (fun o => (get_current_step_from_log o.content).1)) →
      List.Chain' (· ≤ ·)
        (pround1 (calculate_progress st.lastStep false) ::
          progressWrites (runLoop start st obs)) := by
  intro obs
  induction obs with
  | nil => intro st _; simp [runLoop, progressWrites]
  | cons o rest ih =>
    intro st hchain
    rw [List.map_cons, List.chain_cons] at hchain
    obtain ⟨hle, hchain2⟩ := hchain
    simp only [runLoop]
    rcases tick_write_state start st o with ⟨hpw, hstep⟩ | ⟨hpw, hstep⟩
    · by_cases hk : (tick start st o).outcome = .keepRunning
      · rw [if_pos hk]
        rw [show progressWrites (tick start st o :: runLoop start (tick start st o).st rest)
            = progressWrites (runLoop start (tick start st o).st rest) from by
          unfold progressWrites; rw [List.filterMap_cons, hpw]]
        have ihh := ih (tick start st o).st
          (by rw [hstep]; exact chain_le_of_le hle hchain2)
        rw [hstep] at ihh
        exact ihh
      · rw [if_neg hk]
        rw [show progressWrites [tick start st o] = [] from by
          unfold progressWrites; rw [List.filterMap_cons, hpw]; rfl]
        exact List.chain'_singleton _
    · have hmono : pround1 (calculate_progress st.lastStep false) ≤
          pround1 (calculate_progress (get_current_step_from_log o.content).1 false) :=
        pround1_mono (calculate_progress_mono false hle)
      by_cases hk : (tick start st o).outcome = .keepRunning
      · rw [if_pos hk]
        rw [show progressWrites (tick start st o :: runLoop start (tick start st o).st rest)
            = pround1 (calculate_progress (get_current_step_from_log o.content).1 false) ::
              progressWrites (runLoop start (tick start st o).st rest) from by
          unfold progressWrites; rw [List.filterMap_cons, hpw]]
        refine List.chain'_cons.mpr ⟨hmono, ?_⟩
        have ihh := ih (tick start st o).st (by rw [hstep]; exact hchain2)
        rw [hstep] at ihh
        exact ihh
      · rw [if_neg hk]
        rw [show progressWrites [tick start st o]
            = [pround1 (calculate_progress (get_current_step_from_log o.content).1 false)]
            from by unfold progressWrites; rw [List.filterMap_cons, hpw]; rfl]
        exact List.chain'_cons.mpr ⟨hmono, List.chain'_singleton _⟩

lemma runLoop_dropLast_keepRunning (start : ℚ) :
    ∀ (obs : List TickObs) (st : LoopState),
      ∀ r ∈ (runLoop start st obs).dropLast, r.outcome = .keepRunning := by
  intro obs
  induction obs with
  | nil => intro st r hr; simp [runLoop] at hr
  | cons o rest ih =>
    intro st r hr
    simp only [runLoop] at hr
    by_cases hk : (tick start st o).outcome = .keepRunning
    · rw [if_pos hk] at hr
      rcases hrest : runLoop start (tick start st o).st rest with _ | ⟨r2, l2⟩
      · rw [hrest] at hr; simp at hr
      · rw [hrest, List.dropLast_cons₂] at hr
        rcases List.mem_cons.mp hr with rfl | hr2
        · exact hk
        · exact ih (tick start st o).st r (by rw [hrest]; exact hr2)
    · rw [if_neg hk] at hr; simp at hr

lemma runLoop_stalled_killCount (start : ℚ) :
    ∀ (obs : List TickObs) (st : LoopState) (r : TickResult),
      (runLoop start st obs).getLast? = some r → r.outcome = .stalled →
      killCount (runLoop start st obs) = 1 := by
  intro obs
  induction obs with
  | nil => intro st r h _; simp [runLoop] at h
  | cons o rest ih =>
    intro st r hlast hst
    simp only [runLoop] at hlast ⊢
    by_cases hk : (tick start st o).outcome = .keepRunning
    · rw [if_pos hk] at hlast ⊢
      rcases hrest : runLoop start (tick start st o).st rest with _ | ⟨r2, l2⟩
      · rw [hrest] at hlast
        rw [List.getLast?_singleton] at hlast
        have : (tick start st o).outcome = .stalled := by
          rw [Option.some_inj.mp hlast]; exact hst
        rw [hk] at this
        exact absurd this (by decide)
      · rw [hrest] at hlast
        rw [List.getLast?_cons_cons] at hlast
        have hkc := ih (tick start st o).st r (by rw [hrest]; exact hlast) hst
        rw [hrest] at hkc
        unfold killCount at hkc ⊢
        rw [List.map_cons, List.sum_cons, (tick_kills_of_outcome start st o).1 hk, hkc]
    · rw [if_neg hk] at hlast ⊢
      rw [List.getLast?_singleton] at hlast
      have hout : (tick start st o).outcome = .stalled := by
        rw [Option.some_inj.mp hlast]; exact hst
      unfold killCount
      rw [List.map_cons, List.map_nil, List.sum_cons, List.sum_nil,
        (tick_kills_of_outcome start st o).2 hout]
      rfl

lemma isPrefixOf_append (p r : List Char) : p.isPrefixOf (p ++ r) = true := by
  induction p with
  | nil => exact List.isPrefixOf_nil_left
  | cons a t ih => simp [List.isPrefixOf, ih]

lemma takeWhile_append_not {p : Char → Bool} (ds : List Char) (x : Char)
    (r : List Char) (hds : ∀ c ∈ ds, p c = true) (hx : p x = false) :
    (ds ++ x :: r).takeWhile p = ds := by
  induction ds with
  | nil => simp [List.takeWhile_cons, hx]
  | cons a t ih =>
    rw [List.cons_append, List.takeWhile_cons,
      hds a (List.mem_cons_self a t)]
    simp only [if_true]
    rw [ih (fun c hc => hds c (List.mem_cons_of_mem a hc))]

lemma dropWhile_append_not {p : Char → Bool} (ds : List Char) (x : Char)
    (r : List Char) (hds : ∀ c ∈ ds, p c = true) (hx : p x = false) :
    (ds ++ x :: r).dropWhile p = x :: r := by
  induction ds with
  | nil => simp [List.dropWhile_cons, hx]
  | cons a t ih =>
    rw [List.cons_append, List.dropWhile_cons, hds a (List.mem_cons_self a t)]
    simp only [if_true]
    exact ih (fun c hc => hds c (List.mem_cons_of_mem a hc))

lemma takeWhile_eq_self_of {p : Char → Bool} (m : List Char)
    (h : ∀ c ∈ m, p c = true) : m.takeWhile p = m := by
  induction m with
  | nil => rfl
  | cons a t ih =>
    rw [List.takeWhile_cons, h a (List.mem_cons_self a t)]
    simp only [if_true]
    rw [ih (fun c hc => h c (List.mem_cons_of_mem a hc))]

lemma runLoop_cons_keep (start : ℚ) (st : LoopState) (o : TickObs)
    (rest : List TickObs) (r : TickResult) (h : tick start st o = r)
    (hk : r.outcome = .keepRunning) (st2 : LoopState) (hst : r.st = st2) :
    runLoop start st (o :: rest) = r :: runLoop start st2 rest := by
  simp only [runLoop]
  rw [h, if_pos hk, hst]

lemma runLoop_cons_stop (start : ℚ) (st : LoopState) (o : TickObs)
    (rest : List TickObs) (r : TickResult) (h : tick start st o = r)
    (hk : r.outcome ≠ .keepRunning) :
    runLoop start st (o :: rest) = [r] := by
  simp only [runLoop]
  rw [h, if_neg hk]

lemma pround1_cp (s w : Nat) (h : completed_weight s false = w) (hle : w ≤ 99) :
    pround1 (calculate_progress s false) = w := by
  unfold calculate_progress
  rw [h, total_weight_eq]
  rw [show ((100 : Nat) : ℚ) = 100 by norm_num]
  rw [div_mul_cancel₀ _ (by norm_num : (100 : ℚ) ≠ 0)]
  rw [min_eq_right (by exact_mod_cast hle : ((w : Nat) : ℚ) ≤ 99)]
  unfold pround1
  rw [show (10 : ℚ) * ((w : Nat) : ℚ) = ((10 * w : Nat) : ℚ) by push_cast; ring]
  rw [round_natCast]
  push_cast
  rw [mul_div_cancel_left₀ _ (by norm_num : (10 : ℚ) ≠ 0)]

lemma kill_build_change (r : BuildRecordM) (proc : Option (Option Int))
    (res : KillResult) (rec2 : Option BuildRecordM)
    (h : kill_build (some r) proc = (res, rec2)) (hne : rec2 ≠ some r) :
    (r.status = "running" ∨ r.status = "pending") ∧
    rec2 = some ⟨"cancelled", "Build was cancelled by user"⟩ := by
  simp only [kill_build] at h
  by_cases hs : r.status ≠ "running" ∧ r.status ≠ "pending"
  · rw [if_pos hs] at h
    exact absurd (congrArg Prod.snd h).symm hne
  · have hrp : r.status = "running" ∨ r.status = "pending" := by
      by_cases h1 : r.status = "running"
      · exact Or.inl h1
      · right; by_contra h2; exact hs ⟨h1, h2⟩
    rw [if_neg hs] at h
    rcases proc with _ | p
    · exact absurd (congrArg Prod.snd h).symm hne
    · rcases p with _ | rc
      · exact ⟨hrp, (congrArg Prod.snd h).symm⟩
      · exact absurd (congrArg Prod.snd h).symm hne

/-! ## Claims -/

/-- **C5.** For the fixed step-weight table, `calculate_progress(0, False)`
equals 0, `calculate_progress(last_step, True)` equals 99.0 (the last step
of the table is step 9), the returned value is capped at 99.0 (100.0 is
never emitted by the estimator), and the result is monotonic in the step
index. -/
theorem C5_progress_endpoints_cap_mono :
    calculate_progress 0 false = 0 ∧
    calculate_progress 9 true = 99 ∧
    (∀ s b, calculate_progress s b ≤ 99) ∧
    (∀ s t b, s ≤ t → calculate_progress s b ≤ calculate_progress t b) := by
  have h0 : completed_weight 0 false = 0 := by decide
  have h9 : completed_weight 9 true = 100 := by decide
  refine ⟨?_, ?_, fun _ b => min_le_left _ _, fun _ _ b h => calculate_progress_mono b h⟩
  · unfold calculate_progress
    rw [h0, total_weight_eq]
    norm_num
  · unfold calculate_progress
    rw [h9, total_weight_eq]
    rw [show ((100 : Nat) : ℚ) / ((100 : Nat) : ℚ) * 100 = 100 by norm_num]
    rw [min_eq_left (by norm_num)]

/-- Witness for C5: the monotonicity conjunct applied at steps 3 ≤ 7. -/
theorem C5_witness :
    calculate_progress 3 false ≤ calculate_progress 7 false :=
  C5_progress_endpoints_cap_mono.2.2.2 3 7 false (by decide)

/-- **C1.** For every build whose process exits with no prior forced-kill
transition, the exit classification gives final state SUCCESS iff the exit
code is 0 and the accumulated log contains at least one literal success
marker; in particular a run whose process exits 0 but whose log has none of
the markers finalizes as ERROR, not SUCCESS. -/
theorem C1_success_iff_exit0_and_marker :
    ∀ (rc : Int) (log : String),
      ((finalizeBuild rc log).status = "success" ↔
        (rc = 0 ∧ hasSuccessIndicator log = true)) ∧
      (rc = 0 → hasSuccessIndicator log = false →
        (finalizeBuild rc log).status = "error") := by
  intro rc log
  have hi := is_build_successful_iff log rc
  unfold finalizeBuild
  by_cases h : rc = 0 ∧ is_build_successful log rc = true
  · rw [if_pos h]
    refine ⟨⟨fun _ => hi.mp h.2, fun _ => rfl⟩, ?_⟩
    intro _ hmark
    exact absurd (hi.mp h.2).2 (by simp [hmark])
  · rw [if_neg h]
    refine ⟨⟨fun hs => absurd hs (by simp), fun hr => absurd ⟨hr.1, hi.mpr hr⟩ h⟩, ?_⟩
    intro _ _
    rfl

/-- Witness for C1: a zero exit with a marker finalizes as SUCCESS, a zero
exit without any marker finalizes as ERROR. -/
theorem C1_witness :
    (finalizeBuild 0 "ok\nBuild completed successfully\n").status = "success" ∧
    (finalizeBuild 0 "exit 0 but no marker").status = "error" :=
  ⟨(C1_success_iff_exit0_and_marker 0 _).1.mpr ⟨rfl, by decide⟩,
   (C1_success_iff_exit0_and_marker 0 _).2 rfl (by decide)⟩

/-- **C7.** For every log classified as ERROR at process exit, the
`error_type` is the result of case-insensitive substring search in fixed
priority order — out-of-memory, connection-refused, module-not-found,
syntax-error, type-error phrases, else `BUILD_ERROR` — and in particular any
log containing `"heap out of memory"` in any letter case is classified
`OUT_OF_MEMORY` regardless of which lower-priority phrases are present. -/
theorem C7_error_type_priority :
    ∀ log : String,
      (containsSub "heap out of memory".data (toLowerList log.data) = true →
        classify_error_type log = "OUT_OF_MEMORY") ∧
      (containsSub "out of memory".data (toLowerList log.data) = false →
       containsSub "heap out of memory".data (toLowerList log.data) = false →
       (containsSub "econnrefused".data (toLowerList log.data) = true ∨
        containsSub "connection refused".data (toLowerList log.data) = true) →
        classify_error_type log = "CONNECTION_ERROR") ∧
      (containsSub "out of memory".data (toLowerList log.data) = false →
       containsSub "heap out of memory".data (toLowerList log.data) = false →
       containsSub "econnrefused".data (toLowerList log.data) = false →
       containsSub "connection refused".data (toLowerList log.data) = false →
       (containsSub "module not found".data (toLowerList log.data) = true ∨
        containsSub "cannot find module".data (toLowerList log.data) = true) →
        classify_error_type log = "MODULE_NOT_FOUND") ∧
      (containsSub "out of memory".data (toLowerList log.data) = false →
       containsSub "heap out of memory".data (toLowerList log.data) = false →
       containsSub "econnrefused".data (toLowerList log.data) = false →
       containsSub "connection refused".data (toLowerList log.data) = false →
       containsSub "module not found".data (toLowerList log.data) = false →
       containsSub "cannot find module".data (toLowerList log.data) = false →
       (containsSub "syntax error".data (toLowerList log.data) = true ∨
        containsSub "unexpected token".data (toLowerList log.data) = true) →
        classify_error_type log = "SYNTAX_ERROR") ∧
      (containsSub "out of memory".data (toLowerList log.data) = false →
       containsSub "heap out of memory".data (toLowerList log.data) = false →
       containsSub "econnrefused".data (toLowerList log.data) = false →
       containsSub "connection refused".data (toLowerList log.data) = false →
       containsSub "module not found".data (toLowerList log.data) = false →
       containsSub "cannot find module".data (toLowerList log.data) = false →
       containsSub "syntax error".data (toLowerList log.data) = false →
       containsSub "unexpected token".data (toLowerList log.data) = false →
       (containsSub "type error".data (toLowerList log.data) = true ∨
        containsSub "typescript error".data (toLowerList log.data) = true) →
        classify_error_type log = "TYPE_ERROR") ∧
      (containsSub "out of memory".data (toLowerList log.data) = false →
       containsSub "heap out of memory".data (toLowerList log.data) = false →
       containsSub "econnrefused".data (toLowerList log.data) = false →
       containsSub "connection refused".data (toLowerList log.data) = false →
       containsSub "module not found".data (toLowerList log.data) = false →
       containsSub "cannot find module".data (toLowerList log.data) = false →
       containsSub "syntax error".data (toLowerList log.data) = false →
       containsSub "unexpected token".data (toLowerList log.data) = false →
       containsSub "type error".data (toLowerList log.data) = false →
       containsSub "typescript error".data (toLowerList log.data) = false →
        classify_error_type log = "BUILD_ERROR") ∧
      (∀ rc : Int, ¬(rc = 0 ∧ is_build_successful log rc = true) →
        (finalizeBuild rc log).errorType = some (classify_error_type log)) := by
  intro log
  refine ⟨?_, ?_, ?_, ?_, ?_, ?_, ?_⟩
  · intro h; simp [classify_error_type, h]
  · intro h1 h1b h2; rcases h2 with h2 | h2 <;>
      simp [classify_error_type, h1, h1b, h2]
  · intro h1 h1b h2 h3 h4; rcases h4 with h4 | h4 <;>
      simp [classify_error_type, h1, h1b, h2, h3, h4]
  · intro h1 h1b h2 h3 h4 h5 h6; rcases h6 with h6 | h6 <;>
      simp [classify_error_type, h1, h1b, h2, h3, h4, h5, h6]
  · intro h1 h1b h2 h3 h4 h5 h6 h7 h8; rcases h8 with h8 | h8 <;>
      simp [classify_error_type, h1, h1b, h2, h3, h4, h5, h6, h7, h8]
  · intro h1 h1b h2 h3 h4 h5 h6 h7 h8 h9
    simp [classify_error_type, h1, h1b, h2, h3, h4, h5, h6, h7, h8, h9]
  · intro rc h
    unfold finalizeBuild
    rw [if_neg h]

/-- Witness for C7: a log with `HEAP OUT OF MEMORY` and a lower-priority
syntax-error phrase classifies as OUT_OF_MEMORY; a pure connection-refused
log as CONNECTION_ERROR; a phrase-free log as BUILD_ERROR; and the error
classification is what the exit path stores in `error_type`. -/
theorem C7_witness :
    classify_error_type "HEAP OUT OF MEMORY after a Syntax Error" = "OUT_OF_MEMORY" ∧
    classify_error_type "connect ECONNREFUSED 127.0.0.1:5432" = "CONNECTION_ERROR" ∧
    classify_error_type "nothing recognizable" = "BUILD_ERROR" ∧
    (finalizeBuild 2 "HEAP OUT OF MEMORY after a Syntax Error").errorType =
      some "OUT_OF_MEMORY" := by
  refine ⟨(C7_error_type_priority _).1 (by decide),
          (C7_error_type_priority _).2.1 (by decide) (by decide) (Or.inl (by decide)),
          (C7_error_type_priority _).2.2.2.2.2.1 (by decide) (by decide) (by decide)
            (by decide) (by decide) (by decide) (by decide) (by decide) (by decide)
            (by decide),
          ?_⟩
  have h := (C7_error_type_priority "HEAP OUT OF MEMORY after a Syntax Error").2.2.2.2.2.2
    2 (by simp)
  rw [h, (C7_error_type_priority _).1 (by decide)]

/-- **C9.** A kill request against a build whose stored status is not
`pending` or `running` returns a failure whose message cites the current
status, and the stored record is unchanged. -/
theorem C9_kill_rejected_for_terminal_status :
    ∀ (r : BuildRecordM) (proc : Option (Option Int)),
      r.status ≠ "running" → r.status ≠ "pending" →
      kill_build (some r) proc =
        (⟨false, some ("Build cannot be killed - current status: " ++ r.status),
          none⟩, some r) := by
  intro r proc h1 h2
  simp only [kill_build]
  rw [if_pos ⟨h1, h2⟩]

/-- Witness for C9: a kill request on a build in state `"success"`. -/
theorem C9_witness :
    kill_build (some ⟨"success", "Build completed successfully"⟩) (some none) =
      (⟨false, some "Build cannot be killed - current status: success", none⟩,
       some ⟨"success", "Build completed successfully"⟩) :=
  C9_kill_rejected_for_terminal_status _ _ (by decide) (by decide)

/-- **C10.** A kill request against a build whose stored status is `pending`
or `running` but whose id has no live entry in the running-process map
(no entry at all, or an entry whose process already has a `returncode`)
returns a failure with message `"Build process is not running"` and leaves
the stored record unchanged. -/
theorem C10_kill_requires_registered_live_process :
    ∀ (r : BuildRecordM) (proc : Option (Option Int)),
      (r.status = "running" ∨ r.status = "pending") →
      (proc = none ∨ ∃ rc : Int, proc = some (some rc)) →
      kill_build (some r) proc =
        (⟨false, some "Build process is not running", none⟩, some r) := by
  intro r proc h1 h2
  simp only [kill_build]
  rw [if_neg (by rcases h1 with h | h <;> simp [h])]
  rcases h2 with rfl | ⟨rc, rfl⟩ <;> rfl

/-- Witness for C10: a freshly queued build (status `"pending"`, subprocess
not yet registered) cannot be cancelled. -/
theorem C10_witness :
    kill_build (some ⟨"pending", "Build queued"⟩) none =
      (⟨false, some "Build process is not running", none⟩,
       some ⟨"pending", "Build queued"⟩) :=
  C10_kill_requires_registered_live_process _ _ (Or.inr rfl) (Or.inl rfl)

/-- **C2 (amended).** Within every poll tick the process-exit check runs
FIRST (line 450 of the source): if the subprocess has exited, the tick takes
the normal-exit path with no failure transition and no kill, even when
timeout / stall / OOM conditions are simultaneously observable.  Only when
the process has not exited are the remaining checks performed, in the order
hard timeout, then stall, then (at the 30-second sub-interval) the OOM scan.
Once any terminal transition commits in a tick the loop exits: every element
of a run's trace except possibly the last keeps running. -/
theorem C2_tick_order_amended :
    (∀ (start : ℚ) (st : LoopState) (o : TickObs) (rc : Int),
      o.returncode = some rc →
      tick start st o = ⟨.exited, none, none, 0, st⟩) ∧
    (∀ (start : ℚ) (st : LoopState) (o : TickObs),
      o.returncode = none → o.now - start > 1800 →
      tick start st o = ⟨.timeout, some ⟨"error", "TIMEOUT"⟩, none, 1, st⟩) ∧
    (∀ (start : ℚ) (st : LoopState) (o : TickObs),
      o.returncode = none → o.now - start ≤ 1800 → o.logExists = true →
      o.size = st.lastOutputSize → o.now - st.lastOutputTime > 600 →
      (tick start st o).outcome = .stalled) ∧
    (∀ (start : ℚ) (st : LoopState) (o : TickObs),
      o.returncode = none → o.now - start ≤ 1800 → o.logExists = true →
      (o.size ≠ st.lastOutputSize ∨ o.now - st.lastOutputTime ≤ 600) →
      o.now - st.lastSanityCheck > 30 → oomDetected o.content = true →
      (tick start st o).outcome = .oom) ∧
    (∀ (start : ℚ) (st : LoopState) (obs : List TickObs),
      ∀ r ∈ (runLoop start st obs).dropLast, r.outcome = .keepRunning) := by
  refine ⟨tick_exited, tick_timeout, ?_, ?_,
    fun start st obs => runLoop_dropLast_keepRunning start obs st⟩
  · intro start st o h0 h1 h2 h3 h4
    rw [tick_stalled start st o h0 (not_lt.mpr h1) h2 h3 h4]
  · intro start st o h0 h1 h2 h3 h4 h5
    exact (tick_oom start st o h0 (not_lt.mpr h1) h2
      (h3.imp id (fun h => not_lt.mpr h)) h4 h5).1

/-- **C2 (counterexample).** The claim requires the failure transition to
win when a failure condition and process exit are simultaneously observable,
with the exit check only after timeout / stall / OOM.  In the code the
process-done check runs first: at a tick observing both an exit code and an
elapsed time beyond the hard timeout (2000 s > 1800 s), the tick exits
normally — no TIMEOUT transition, no terminal write, no kill. -/
theorem C2_counterexample :
    ((2000 : ℚ) - 0 > 1800) ∧
    tick 0 ⟨0, 0, 0, 0⟩ ⟨some 0, 2000, true, 5, "x"⟩ =
      ⟨.exited, none, none, 0, ⟨0, 0, 0, 0⟩⟩ ∧
    (tick 0 ⟨0, 0, 0, 0⟩ ⟨some 0, 2000, true, 5, "x"⟩).outcome ≠ .timeout ∧
    (tick 0 ⟨0, 0, 0, 0⟩ ⟨some 0, 2000, true, 5, "x"⟩).kills = 0 := by
  have ht := tick_exited 0 ⟨0, 0, 0, 0⟩ ⟨some 0, 2000, true, 5, "x"⟩ 0 rfl
  refine ⟨by norm_num, ht, ?_, ?_⟩
  · rw [ht]; decide
  · rw [ht]

/-- Witness for C2: each conjunct of the amended ordering applied at a
concrete tick, and the trace-prefix conjunct applied to a two-tick run whose
first tick keeps running. -/
theorem C2_witness :
    tick 0 ⟨0, 0, 0, 0⟩ ⟨some 0, 2000, true, 5, "x"⟩ =
      ⟨.exited, none, none, 0, ⟨0, 0, 0, 0⟩⟩ ∧
    tick 0 ⟨0, 0, 0, 0⟩ ⟨none, 2000, true, 5, "x"⟩ =
      ⟨.timeout, some ⟨"error", "TIMEOUT"⟩, none, 1, ⟨0, 0, 0, 0⟩⟩ ∧
    (tick 0 ⟨0, 5, 0, 0⟩ ⟨none, 700, true, 5, "x"⟩).outcome = .stalled ∧
    (tick 0 ⟨0, 5, 0, 0⟩ ⟨none, 100, true, 5, "FATAL ERROR"⟩).outcome = .oom ∧
    (tick 0 ⟨0, 0, 0, 0⟩ ⟨none, 5, true, 1, "[STEP 1] Stop PM2"⟩).outcome =
      .keepRunning := by
  have e1 : tick 0 ⟨0, 0, 0, 0⟩ ⟨none, 5, true, 1, "[STEP 1] Stop PM2"⟩ =
      ⟨.keepRunning, none, some (pround1 (calculate_progress 1 false)), 0,
        ⟨5, 1, 1, 0⟩⟩ := by
    rw [tick_quiet_progress 0 _ _ rfl (by norm_num) rfl (by decide) (by norm_num)]
    rw [stepUpdate_step ⟨0, 0, 0, 0⟩ _ 1 (by decide) (by decide)]
  have e2 : tick 0 ⟨5, 1, 1, 0⟩ ⟨none, 700, true, 1, "[STEP 1] Stop PM2"⟩ =
      ⟨.stalled, some ⟨"stalled", "STALLED"⟩, none, 1, ⟨5, 1, 1, 0⟩⟩ := by
    rw [tick_stalled 0 _ _ rfl (by norm_num) rfl rfl (by norm_num)]
    rw [stepUpdate_noStep ⟨5, 1, 1, 0⟩ _ (by decide)]
  have hrun : runLoop 0 ⟨0, 0, 0, 0⟩
      [⟨none, 5, true, 1, "[STEP 1] Stop PM2"⟩,
       ⟨none, 700, true, 1, "[STEP 1] Stop PM2"⟩] =
      [⟨.keepRunning, none, some (pround1 (calculate_progress 1 false)), 0,
        ⟨5, 1, 1, 0⟩⟩,
       ⟨.stalled, some ⟨"stalled", "STALLED"⟩, none, 1, ⟨5, 1, 1, 0⟩⟩] := by
    rw [runLoop_cons_keep 0 _ _ _ _ e1 rfl ⟨5, 1, 1, 0⟩ rfl,
      runLoop_cons_stop 0 _ _ _ _ e2 (by decide)]
  refine ⟨C2_tick_order_amended.1 0 _ _ 0 rfl,
    C2_tick_order_amended.2.1 0 _ _ rfl (by norm_num),
    C2_tick_order_amended.2.2.1 0 _ _ rfl (by norm_num) rfl rfl (by norm_num),
    C2_tick_order_amended.2.2.2.1 0 _ _ rfl (by norm_num) rfl
      (Or.inr (by norm_num)) (by norm_num) (by decide), ?_⟩
  have hm := C2_tick_order_amended.2.2.2.2 0 ⟨0, 0, 0, 0⟩
    [⟨none, 5, true, 1, "[STEP 1] Stop PM2"⟩, ⟨none, 700, true, 1, "[STEP 1] Stop PM2"⟩]
    ⟨.keepRunning, none, some (pround1 (calculate_progress 1 false)), 0, ⟨5, 1, 1, 0⟩⟩
    (by rw [hrun]; exact List.mem_singleton.mpr rfl)
  exact e1 ▸ hm

/-- **C3 (amended).** At any tick where the process is still alive, the log
file exists, its byte size has not grown since the last recorded growth, the
time since that growth exceeds the 600-second stall window, AND the hard
1800-second build timeout has not also been exceeded (the timeout check runs
first and would otherwise preempt), the supervisor transitions the record to
STALLED with error_type STALLED and sends one kill signal; and over any
whole run whose terminating tick stalled, the process receives exactly one
kill signal. -/
theorem C3_stall_amended :
    (∀ (start : ℚ) (st : LoopState) (o : TickObs),
      o.returncode = none → o.now - start ≤ 1800 → o.logExists = true →
      o.size = st.lastOutputSize → o.now - st.lastOutputTime > 600 →
      (tick start st o).outcome = .stalled ∧
      (tick start st o).terminalWrite = some ⟨"stalled", "STALLED"⟩ ∧
      (tick start st o).kills = 1) ∧
    (∀ (start : ℚ) (st : LoopState) (obs : List TickObs) (r : TickResult),
      (runLoop start st obs).getLast? = some r → r.outcome = .stalled →
      killCount (runLoop start st obs) = 1) := by
  constructor
  · intro start st o h0 h1 h2 h3 h4
    rw [tick_stalled start st o h0 (not_lt.mpr h1) h2 h3 h4]
    exact ⟨rfl, rfl, rfl⟩
  · exact fun start st obs r h1 h2 => runLoop_stalled_killCount start obs st r h1 h2

/-- **C3 (counterexample).** The claim as stated quantifies over every run
in which the log has not grown for longer than the stall window while the
process is alive; at a tick where that holds (no growth for 1900 s > 600 s,
process alive) but the elapsed time also exceeds the hard timeout (2000 s >
1800 s), the code transitions to ERROR / TIMEOUT, not STALLED — the timeout
check precedes the stall check. -/
theorem C3_counterexample :
    ((2000 : ℚ) - 100 > 600) ∧
    (tick 0 ⟨100, 5, 0, 0⟩ ⟨none, 2000, true, 5, "x"⟩).outcome = .timeout ∧
    (tick 0 ⟨100, 5, 0, 0⟩ ⟨none, 2000, true, 5, "x"⟩).outcome ≠ .stalled ∧
    (tick 0 ⟨100, 5, 0, 0⟩ ⟨none, 2000, true, 5, "x"⟩).terminalWrite =
      some ⟨"error", "TIMEOUT"⟩ := by
  have ht := tick_timeout 0 ⟨100, 5, 0, 0⟩ ⟨none, 2000, true, 5, "x"⟩ rfl (by norm_num)
  refine ⟨by norm_num, ?_, ?_, ?_⟩
  · rw [ht]
  · rw [ht]; decide
  · rw [ht]

/-- Witness for C3: a stalled tick at 700 s with last growth at 0 s, and the
one-tick run it terminates, whose total kill count is one. -/
theorem C3_witness :
    (tick 0 ⟨0, 5, 0, 0⟩ ⟨none, 700, true, 5, "x"⟩).outcome = .stalled ∧
    (tick 0 ⟨0, 5, 0, 0⟩ ⟨none, 700, true, 5, "x"⟩).terminalWrite =
      some ⟨"stalled", "STALLED"⟩ ∧
    (tick 0 ⟨0, 5, 0, 0⟩ ⟨none, 700, true, 5, "x"⟩).kills = 1 ∧
    killCount (runLoop 0 ⟨0, 5, 0, 0⟩ [⟨none, 700, true, 5, "x"⟩]) = 1 := by
  have h1 := C3_stall_amended.1 0 ⟨0, 5, 0, 0⟩ ⟨none, 700, true, 5, "x"⟩
    rfl (by norm_num) rfl rfl (by norm_num)
  have ht : tick 0 ⟨0, 5, 0, 0⟩ ⟨none, 700, true, 5, "x"⟩ =
      ⟨.stalled, some ⟨"stalled", "STALLED"⟩, none, 1, ⟨0, 5, 0, 0⟩⟩ := by
    rw [tick_stalled 0 _ _ rfl (by norm_num) rfl rfl (by norm_num)]
    rw [stepUpdate_noStep ⟨0, 5, 0, 0⟩ _ (by decide)]
  have hrun : runLoop 0 ⟨0, 5, 0, 0⟩ [⟨none, 700, true, 5, "x"⟩] =
      [⟨.stalled, some ⟨"stalled", "STALLED"⟩, none, 1, ⟨0, 5, 0, 0⟩⟩] :=
    runLoop_cons_stop 0 _ _ _ _ ht (by decide)
  have h2 := C3_stall_amended.2 0 ⟨0, 5, 0, 0⟩ [⟨none, 700, true, 5, "x"⟩]
    ⟨.stalled, some ⟨"stalled", "STALLED"⟩, none, 1, ⟨0, 5, 0, 0⟩⟩
    (by rw [hrun]; rfl) rfl
  exact ⟨h1.1, h1.2.1, h1.2.2, h2⟩

/-- **C4 (amended).** The progress value a tick writes is the rounded
estimator value of the step index derived from the log, which is a monotone
function of that index: over any run in which the derived step indices are
non-decreasing, the sequence of written progress values is non-decreasing
(the code has no guard, so a log whose last `[STEP n]` marker regresses
makes progress regress — see the counterexample).  The lifecycle state never
moves backward to running or pending: every terminal write of the loop has
status `error` or `stalled`, and `kill_build` changes the stored record only
from `running`/`pending`, and only to `cancelled`. -/
theorem C4_monotonicity_amended :
    (∀ (start : ℚ) (st : LoopState) (obs : List TickObs),
      List.Chain (· ≤ ·) st.lastStep
        (obs.map (fun o => (get_current_step_from_log o.content).1)) →
      List.Chain' (· ≤ ·)
        (pround1 (calculate_progress st.lastStep false) ::
          progressWrites (runLoop start st obs))) ∧
    (∀ (start : ℚ) (st : LoopState) (o : TickObs) (w : StatusWrite),
      (tick start st o).terminalWrite = some w →
      w.status = "error" ∨ w.status = "stalled") ∧
    (∀ (r : BuildRecordM) (proc : Option (Option Int)) (res : KillResult)
        (rec2 : Option BuildRecordM),
      kill_build (some r) proc = (res, rec2) → rec2 ≠ some r →
      (r.status = "running" ∨ r.status = "pending") ∧
      rec2 = some ⟨"cancelled", "Build was cancelled by user"⟩) :=
  ⟨fun start st obs => runLoop_progress_chain start obs st,
   tick_terminalWrite_status, kill_build_change⟩

/-- **C4 (counterexample).** A two-tick run, both ticks taken while the
build keeps running (no terminal write): the log first shows `[STEP 5]` and
then appends a later `[STEP 1]` marker, so the derived step regresses and
the written progress sequence is [20, 2] — strictly decreasing, refuting
unconditional monotonicity of progress while RUNNING. -/
theorem C4_counterexample :
    (runLoop 0 ⟨0, 0, 0, 0⟩
      [⟨none, 5, true, 1, "[STEP 5] Build app"⟩,
       ⟨none, 10, true, 2, "[STEP 5] Build app\n[STEP 1] Stop PM2"⟩]).map
      (fun r => r.terminalWrite) = [none, none] ∧
    progressWrites (runLoop 0 ⟨0, 0, 0, 0⟩
      [⟨none, 5, true, 1, "[STEP 5] Build app"⟩,
       ⟨none, 10, true, 2, "[STEP 5] Build app\n[STEP 1] Stop PM2"⟩]) = [20, 2] ∧
    ¬((20 : ℚ) ≤ 2) := by
  have e1 : tick 0 ⟨0, 0, 0, 0⟩ ⟨none, 5, true, 1, "[STEP 5] Build app"⟩ =
      ⟨.keepRunning, none, some (pround1 (calculate_progress 5 false)), 0,
        ⟨5, 1, 5, 0⟩⟩ := by
    rw [tick_quiet_progress 0 _ _ rfl (by norm_num) rfl (by decide) (by norm_num)]
    rw [stepUpdate_step ⟨0, 0, 0, 0⟩ _ 5 (by decide) (by decide)]
  have e2 : tick 0 ⟨5, 1, 5, 0⟩
      ⟨none, 10, true, 2, "[STEP 5] Build app\n[STEP 1] Stop PM2"⟩ =
      ⟨.keepRunning, none, some (pround1 (calculate_progress 1 false)), 0,
        ⟨10, 2, 1, 0⟩⟩ := by
    rw [tick_quiet_progress 0 _ _ rfl (by norm_num) rfl (by decide) (by norm_num)]
    rw [stepUpdate_step ⟨5, 1, 5, 0⟩ _ 1 (by decide) (by decide)]
  have hrun : runLoop 0 ⟨0, 0, 0, 0⟩
      [⟨none, 5, true, 1, "[STEP 5] Build app"⟩,
       ⟨none, 10, true, 2, "[STEP 5] Build app\n[STEP 1] Stop PM2"⟩] =
      [⟨.keepRunning, none, some (pround1 (calculate_progress 5 false)), 0,
        ⟨5, 1, 5, 0⟩⟩,
       ⟨.keepRunning, none, some (pround1 (calculate_progress 1 false)), 0,
        ⟨10, 2, 1, 0⟩⟩] := by
    rw [runLoop_cons_keep 0 _ _ _ _ e1 rfl ⟨5, 1, 5, 0⟩ rfl,
      runLoop_cons_keep 0 _ _ _ _ e2 rfl ⟨10, 2, 1, 0⟩ rfl]
    rfl
  refine ⟨?_, ?_, by norm_num⟩
  · rw [hrun]; rfl
  · rw [hrun]
    show [pround1 (calculate_progress 5 false), pround1 (calculate_progress 1 false)]
      = [20, 2]
    rw [pround1_cp 5 20 (by decide) (by norm_num), pround1_cp 1 2 (by decide) (by norm_num)]
    norm_num

/-- Witness for C4: a run with non-decreasing derived steps (1 then 5) has a
non-decreasing progress-write chain; the loop's terminal writes carry status
`error` or `stalled`; and a successful kill of a running build moves the
record to `cancelled`. -/
theorem C4_witness :
    List.Chain' (· ≤ ·)
      (pround1 (calculate_progress 0 false) ::
        progressWrites (runLoop 0 ⟨0, 0, 0, 0⟩
          [⟨none, 5, true, 1, "[STEP 1] Stop PM2"⟩,
           ⟨none, 10, true, 2, "[STEP 1] Stop PM2\n[STEP 5] Build app"⟩])) ∧
    ((⟨"error", "TIMEOUT"⟩ : StatusWrite).status = "error" ∨
     (⟨"error", "TIMEOUT"⟩ : StatusWrite).status = "stalled") ∧
    (((⟨"running", "Build starting..."⟩ : BuildRecordM).status = "running" ∨
      (⟨"running", "Build starting..."⟩ : BuildRecordM).status = "pending") ∧
     (some ⟨"cancelled", "Build was cancelled by user"⟩ : Option BuildRecordM) =
       some ⟨"cancelled", "Build was cancelled by user"⟩) := by
  refine ⟨C4_monotonicity_amended.1 0 ⟨0, 0, 0, 0⟩ _
    (show List.Chain (· ≤ ·) 0 [1, 5] from
      List.Chain.cons (by decide) (List.Chain.cons (by decide) List.Chain.nil)),
    ?_, ?_⟩
  · exact C4_monotonicity_amended.2.1 0 ⟨0, 0, 0, 0⟩ ⟨none, 2000, true, 5, "x"⟩
      ⟨"error", "TIMEOUT"⟩
      (by rw [tick_timeout 0 _ _ rfl (by norm_num)])
  · exact C4_monotonicity_amended.2.2 ⟨"running", "Build starting..."⟩ (some none)
      ⟨true, none, some "Build cancelled successfully"⟩
      (some ⟨"cancelled", "Build was cancelled by user"⟩) (by decide) (by decide)

/-- **C6 (amended).** After stripping color escapes and surrounding
whitespace: an empty line yields no entry; a line starting with `[BUILD]`,
`[OK]`, `[INFO]`, `[WARN]` or `[ERROR]` yields an entry of the
corresponding severity whose message is the remainder with the prefix and
surrounding whitespace stripped; a line of the exact shape
`[STEP <digits>] <nonempty rest>` (one space after the bracket) yields a
STEP entry carrying the parsed number and the rest of the line — the regex
consumes exactly one space after `]`, so the message keeps any further
leading whitespace (see the counterexample); every other nonempty line,
including malformed `[STEP ...]` lines, yields an INFO entry with the
cleaned line verbatim; the parser is total and returns no entry only for
blank input. -/
theorem C6_parser_amended :
    (∀ raw : String,
      parse_log_line raw = none ↔ pyStripList (stripAnsi raw.data) = []) ∧
    (∀ (raw : String) (r : List Char),
      pyStripList (stripAnsi raw.data) = "[BUILD]".data ++ r →
      parse_log_line raw = some ⟨.build, ⟨pyStripList r⟩, none⟩) ∧
    (∀ (raw : String) (ds m : List Char),
      pyStripList (stripAnsi raw.data) = "[STEP ".data ++ ds ++ "] ".data ++ m →
      ds ≠ [] → (∀ c ∈ ds, c.isDigit = true) → m ≠ [] → '\n' ∉ m →
      parse_log_line raw = some ⟨.step, ⟨m⟩, some (digitsToNat ds)⟩) ∧
    (∀ (raw : String) (r : List Char),
      pyStripList (stripAnsi raw.data) = "[OK]".data ++ r →
      parse_log_line raw = some ⟨.ok, ⟨pyStripList r⟩, none⟩) ∧
    (∀ (raw : String) (r : List Char),
      pyStripList (stripAnsi raw.data) = "[INFO]".data ++ r →
      parse_log_line raw = some ⟨.info, ⟨pyStripList r⟩, none⟩) ∧
    (∀ (raw : String) (r : List Char),
      pyStripList (stripAnsi raw.data) = "[WARN]".data ++ r →
      parse_log_line raw = some ⟨.warn, ⟨pyStripList r⟩, none⟩) ∧
    (∀ (raw : String) (r : List Char),
      pyStripList (stripAnsi raw.data) = "[ERROR]".data ++ r →
      parse_log_line raw = some ⟨.error, ⟨pyStripList r⟩, none⟩) ∧
    (∀ raw : String,
      pyStripList (stripAnsi raw.data) ≠ [] →
      "[BUILD]".data.isPrefixOf (pyStripList (stripAnsi raw.data)) = false →
      stepMatchAt (pyStripList (stripAnsi raw.data)) = none →
      "[OK]".data.isPrefixOf (pyStripList (stripAnsi raw.data)) = false →
      "[INFO]".data.isPrefixOf (pyStripList (stripAnsi raw.data)) = false →
      "[WARN]".data.isPrefixOf (pyStripList (stripAnsi raw.data)) = false →
      "[ERROR]".data.isPrefixOf (pyStripList (stripAnsi raw.data)) = false →
      parse_log_line raw =
        some ⟨.info, ⟨pyStripList (stripAnsi raw.data)⟩, none⟩) := by
  refine ⟨?_, ?_, ?_, ?_, ?_, ?_, ?_, ?_⟩
  · intro raw
    simp only [parse_log_line]
    by_cases h : pyStripList (stripAnsi raw.data) = []
    · rw [if_pos h]; simp [h]
    · rw [if_neg h]
      refine ⟨fun hc => ?_, fun hc => absurd hc h⟩
      exfalso
      by_cases hb : "[BUILD]".data.isPrefixOf (pyStripList (stripAnsi raw.data)) = true
      · rw [if_pos hb] at hc; exact Option.noConfusion hc
      · rw [if_neg hb] at hc
        rcases hms : (if "[STEP".data.isPrefixOf (pyStripList (stripAnsi raw.data))
            then stepMatchAt (pyStripList (stripAnsi raw.data)) else none) with _ | nm
        · rw [hms] at hc
          split_ifs at hc
        · rw [hms] at hc
          exact Option.noConfusion hc
  · intro raw r hl
    simp only [parse_log_line]
    rw [hl, show "[BUILD]".data = ['[', 'B', 'U', 'I', 'L', 'D', ']'] from by decide]
    rw [if_neg (by simp)]
    simp [isPrefixOf_append]
  · intro raw ds m hl hds hdig hm hnl
    have hmP : ∀ c ∈ m, decide (c ≠ '\n') = true := fun c hc =>
      decide_eq_true (fun hcn => hnl (hcn ▸ hc))
    simp only [parse_log_line, stepMatchAt]
    rw [hl]
    simp only [show "[STEP ".data = ['[', 'S', 'T', 'E', 'P', ' '] from by decide,
      show "] ".data = [']', ' '] from by decide]
    simp only [List.append_assoc, List.cons_append, List.nil_append]
    rw [if_neg (by simp)]
    rw [if_neg (show ¬("[BUILD]".data.isPrefixOf
        ('[' :: 'S' :: 'T' :: 'E' :: 'P' :: ' ' :: (ds ++ ']' :: ' ' :: m)) = true)
        from by
      rw [show "[BUILD]".data = ['[', 'B', 'U', 'I', 'L', 'D', ']'] from by decide]
      simp [List.isPrefixOf])]
    rw [if_pos (show "[STEP".data.isPrefixOf
        ('[' :: 'S' :: 'T' :: 'E' :: 'P' :: ' ' :: (ds ++ ']' :: ' ' :: m)) = true
        from by
      rw [show "[STEP".data = ['[', 'S', 'T', 'E', 'P'] from by decide]
      simp [List.isPrefixOf])]
    rw [show (List.drop 6
        ('[' :: 'S' :: 'T' :: 'E' :: 'P' :: ' ' :: (ds ++ ']' :: ' ' :: m)))
        = ds ++ ']' :: ' ' :: m from rfl]
    rw [takeWhile_append_not ds ']' (' ' :: m) hdig (by decide),
      dropWhile_append_not ds ']' (' ' :: m) hdig (by decide)]
    rw [if_pos (show ds ≠ [] ∧ ([']', ' '].isPrefixOf (']' :: ' ' :: m)) = true from
      ⟨hds, by simp [List.isPrefixOf]⟩)]
    rw [show (List.drop 2 (']' :: ' ' :: m)) = m from rfl]
    rw [takeWhile_eq_self_of m hmP]
    rw [if_pos hm]
    rw [if_pos (show (['[', 'S', 'T', 'E', 'P', ' '] : List Char).isPrefixOf
        ('[' :: 'S' :: 'T' :: 'E' :: 'P' :: ' ' :: (ds ++ ']' :: ' ' :: m)) = true
        from by simp [List.isPrefixOf])]
  · intro raw r hl
    simp only [parse_log_line]
    rw [hl, show "[OK]".data = ['[', 'O', 'K', ']'] from by decide]
    rw [if_neg (by simp)]
    rw [if_neg (show ¬("[BUILD]".data.isPrefixOf (['[', 'O', 'K', ']'] ++ r) = true)
        from by
      rw [show "[BUILD]".data = ['[', 'B', 'U', 'I', 'L', 'D', ']'] from by decide]
      simp [List.isPrefixOf, List.cons_append])]
    rw [show (if "[STEP".data.isPrefixOf (['[', 'O', 'K', ']'] ++ r) = true
        then stepMatchAt (['[', 'O', 'K', ']'] ++ r) else none) = none from by
      rw [show "[STEP".data = ['[', 'S', 'T', 'E', 'P'] from by decide]
      rw [if_neg (by simp [List.isPrefixOf, List.cons_append])]]
    simp [List.isPrefixOf, isPrefixOf_append]
  · intro raw r hl
    simp only [parse_log_line]
    rw [hl, show "[INFO]".data = ['[', 'I', 'N', 'F', 'O', ']'] from by decide]
    rw [if_neg (by simp)]
    rw [if_neg (show ¬("[BUILD]".data.isPrefixOf (['[', 'I', 'N', 'F', 'O', ']'] ++ r)
        = true) from by
      rw [show "[BUILD]".data = ['[', 'B', 'U', 'I', 'L', 'D', ']'] from by decide]
      simp [List.isPrefixOf, List.cons_append])]
    rw [show (if "[STEP".data.isPrefixOf (['[', 'I', 'N', 'F', 'O', ']'] ++ r) = true
        then stepMatchAt (['[', 'I', 'N', 'F', 'O', ']'] ++ r) else none) = none from by
      rw [show "[STEP".data = ['[', 'S', 'T', 'E', 'P'] from by decide]
      rw [if_neg (by simp [List.isPrefixOf, List.cons_append])]]
    simp [List.isPrefixOf, isPrefixOf_append]
  · intro raw r hl
    simp only [parse_log_line]
    rw [hl, show "[WARN]".data = ['[', 'W', 'A', 'R', 'N', ']'] from by decide]
    rw [if_neg (by simp)]
    rw [if_neg (show ¬("[BUILD]".data.isPrefixOf (['[', 'W', 'A', 'R', 'N', ']'] ++ r)
        = true) from by
      rw [show "[BUILD]".data = ['[', 'B', 'U', 'I', 'L', 'D', ']'] from by decide]
      simp [List.isPrefixOf, List.cons_append])]
    rw [show (if "[STEP".data.isPrefixOf (['[', 'W', 'A', 'R', 'N', ']'] ++ r) = true
        then stepMatchAt (['[', 'W', 'A', 'R', 'N', ']'] ++ r) else none) = none from by
      rw [show "[STEP".data = ['[', 'S', 'T', 'E', 'P'] from by decide]
      rw [if_neg (by simp [List.isPrefixOf, List.cons_append])]]
    simp [List.isPrefixOf, isPrefixOf_append]
  · intro raw r hl
    simp only [parse_log_line]
    rw [hl]
    simp only [show "[ERROR]".data = ['[', 'E', 'R', 'R', 'O', 'R', ']'] from by decide]
    rw [if_neg (by simp)]
    rw [if_neg (show ¬("[BUILD]".data.isPrefixOf
        (['[', 'E', 'R', 'R', 'O', 'R', ']'] ++ r) = true) from by
      rw [show "[BUILD]".data = ['[', 'B', 'U', 'I', 'L', 'D', ']'] from by decide]
      simp [List.isPrefixOf, List.cons_append])]
    rw [show (if "[STEP".data.isPrefixOf (['[', 'E', 'R', 'R', 'O', 'R', ']'] ++ r)
        = true then stepMatchAt (['[', 'E', 'R', 'R', 'O', 'R', ']'] ++ r) else none)
        = none from by
      rw [show "[STEP".data = ['[', 'S', 'T', 'E', 'P'] from by decide]
      rw [if_neg (by simp [List.isPrefixOf, List.cons_append])]]
    simp [List.isPrefixOf, isPrefixOf_append]
  · intro raw hne hb hsm hok hinfo hwarn herr
    simp only [parse_log_line]
    rw [if_neg hne, if_neg (by rw [hb]; exact Bool.false_ne_true)]
    have hsc : (if "[STEP".data.isPrefixOf (pyStripList (stripAnsi raw.data))
        then stepMatchAt (pyStripList (stripAnsi raw.data)) else none) = none := by
      split_ifs <;> [exact hsm; rfl]
    rw [hsc]
    rw [if_neg (by rw [hok]; exact Bool.false_ne_true),
      if_neg (by rw [hinfo]; exact Bool.false_ne_true),
      if_neg (by rw [hwarn]; exact Bool.false_ne_true),
      if_neg (by rw [herr]; exact Bool.false_ne_true)]

/-- **C6 (counterexample).** The claim says a `[STEP n]` line yields a
message with "exactly the prefix and following whitespace stripped"; the
regex `\[STEP (\d+)\] (.+)` consumes exactly one space, so on
`"[STEP 2]  done"` (two spaces) the parser keeps the second space in the
message: it yields `" done"`, not `"done"`. -/
theorem C6_counterexample :
    parse_log_line "[STEP 2]  done" =
      some ⟨.step, " done", some 2⟩ ∧ (" done" : String) ≠ "done" := by
  constructor
  · decide
  · decide

/-- Witness for C6: each case of the amended parser contract applied to a
concrete line. -/
theorem C6_witness :
    parse_log_line "   " = none ∧
    parse_log_line "[BUILD] hello" = some ⟨.build, "hello", none⟩ ∧
    parse_log_line "[STEP 3] Check memory" =
      some ⟨.step, "Check memory", some 3⟩ ∧
    parse_log_line "\x1b[31m[ERROR]\x1b[0m boom" = some ⟨.error, "boom", none⟩ ∧
    parse_log_line "[STEP x] bad" = some ⟨.info, "[STEP x] bad", none⟩ := by
  refine ⟨C6_parser_amended.1 "   " |>.mpr (by decide), ?_, ?_, ?_, ?_⟩
  · exact (C6_parser_amended.2.1 "[BUILD] hello" " hello".data (by decide)).trans
      (by decide)
  · exact (C6_parser_amended.2.2.1 "[STEP 3] Check memory" ['3'] "Check memory".data
      (by decide) (by decide) (by decide) (by decide) (by decide)).trans (by decide)
  · exact (C6_parser_amended.2.2.2.2.2.2.1 "\x1b[31m[ERROR]\x1b[0m boom" " boom".data
      (by decide)).trans (by decide)
  · exact C6_parser_amended.2.2.2.2.2.2.2 "[STEP x] bad" (by decide) (by decide)
      (by decide) (by decide) (by decide) (by decide) (by decide) |>.trans (by decide)

/-- **C8 (amended).** For every build classified as ERROR at process exit,
the record's `error` field is the first ten entries of `extract_errors`
joined with newlines — and `extract_errors` collects not only the
`[ERROR]`-tagged lines (prefix stripped) but also lines containing
`Build error` / `Failed to compile` and lines containing `FATAL ERROR` /
case-insensitive `heap out of memory`, a line possibly contributing several
entries; only when `extract_errors` is empty is the error field the last
3000 characters of the log, and `"Unknown error"` for an empty log.  Every
`[ERROR]`-tagged line does contribute its stripped remainder as an entry. -/
theorem C8_error_field_amended :
    (∀ (rc : Int) (log : String), ¬(rc = 0 ∧ is_build_successful log rc = true) →
      (extract_errors log ≠ [] →
        (finalizeBuild rc log).error =
          some (joinNl ((extract_errors log).take 10))) ∧
      (extract_errors log = [] → log ≠ "" →
        (finalizeBuild rc log).error = some (lastChars 3000 log)) ∧
      (extract_errors log = [] → log = "" →
        (finalizeBuild rc log).error = some "Unknown error")) ∧
    (∀ (log : String) (l : List Char), l ∈ splitOnNl log.data →
      "[ERROR]".data.isPrefixOf (pyStripList l) = true →
      (⟨pyStripList ((pyStripList l).drop 7)⟩ : String) ∈ extract_errors log) := by
  constructor
  · intro rc log h
    unfold finalizeBuild
    rw [if_neg h]
    refine ⟨fun he => ?_, fun he hl => ?_, fun he hl => ?_⟩
    · show some (if extract_errors log ≠ [] then joinNl ((extract_errors log).take 10)
          else if log ≠ "" then lastChars 3000 log else "Unknown error") = _
      rw [if_pos he]
    · show some (if extract_errors log ≠ [] then joinNl ((extract_errors log).take 10)
          else if log ≠ "" then lastChars 3000 log else "Unknown error") = _
      rw [if_neg (not_not_intro he), if_pos hl]
    · show some (if extract_errors log ≠ [] then joinNl ((extract_errors log).take 10)
          else if log ≠ "" then lastChars 3000 log else "Unknown error") = _
      rw [if_neg (not_not_intro he), if_neg (not_not_intro hl)]
  · intro log l hmem hpref
    unfold extract_errors
    refine List.mem_flatMap.mpr ⟨l, hmem, ?_⟩
    unfold lineErrors
    rw [if_pos hpref]
    simp

/-- **C8 (counterexample).** A log with no `[ERROR]`-tagged line at all but
one `Failed to compile` line: the claim requires `error` to be the last
3000 characters of the log (the whole log here), but the code stores just
the collected `Failed to compile` line. -/
theorem C8_counterexample :
    extract_errors "abc\nFailed to compile" = ["Failed to compile"] ∧
    (∀ l ∈ splitOnNl "abc\nFailed to compile".data,
      "[ERROR]".data.isPrefixOf (pyStripList l) = false) ∧
    (finalizeBuild 1 "abc\nFailed to compile").error = some "Failed to compile" ∧
    some "Failed to compile" ≠ some (lastChars 3000 "abc\nFailed to compile") := by
  refine ⟨by decide, by decide, by decide, by decide⟩

/-- Witness for C8: the three branches of the amended error-field contract
and the `[ERROR]`-line membership, at concrete logs. -/
theorem C8_witness :
    (finalizeBuild 1 "[ERROR] alpha\nxx\n[ERROR] beta").error =
      some "alpha\nbeta" ∧
    (finalizeBuild 1 "plain failure text").error = some "plain failure text" ∧
    (finalizeBuild 1 "").error = some "Unknown error" ∧
    ("alpha" : String) ∈ extract_errors "[ERROR] alpha\nxx\n[ERROR] beta" := by
  refine ⟨?_, ?_, ?_, ?_⟩
  · exact ((C8_error_field_amended.1 1 "[ERROR] alpha\nxx\n[ERROR] beta"
      (by simp)).1 (by decide)).trans (by decide)
  · exact ((C8_error_field_amended.1 1 "plain failure text"
      (by simp)).2.1 (by decide) (by decide)).trans (by decide)
  · exact (C8_error_field_amended.1 1 "" (by simp)).2.2 (by decide) rfl
  · have h := C8_error_field_amended.2 "[ERROR] alpha\nxx\n[ERROR] beta"
      "[ERROR] alpha".data (by decide) (by decide)
    exact (show (⟨pyStripList (("[ERROR] alpha".data).drop 7)⟩ : String) = "alpha"
      from by decide) ▸ h

end BuildMaster
